import Mathlib

/-!
Verification of the `MessageBuilder` string-accumulation utility
(`src/message_builder.rs`): a builder wrapping one growable `String`,
with chainable append operations (`push`, `mention`, `channel`, `role`,
`user`, `emoji`) and a terminal `build` returning the accumulated text.

The identifier and entity types (`ChannelId`, `RoleId`, `UserId`,
`Emoji`, `Mentionable`) come from the `::model` crate, which is not part
of this repository's sources; their formatting rules are modelled from
the specification and marked as such.
-/

namespace MsgB

/-- Modelled from the spec: `ChannelId` from the external `::model` crate
(not under src/), an opaque numeric channel identifier. -/
structure ChannelId where
  id : Nat
  deriving DecidableEq, Repr

/-- Modelled from the spec: `RoleId` from the external `::model` crate
(not under src/), an opaque numeric role identifier. -/
structure RoleId where
  id : Nat
  deriving DecidableEq, Repr

/-- Modelled from the spec: `UserId` from the external `::model` crate
(not under src/), an opaque numeric user identifier. -/
structure UserId where
  id : Nat
  deriving DecidableEq, Repr

/-- Modelled from the spec: the `Display` rule of `ChannelId` (owned by the
`::model` crate, not under src/), producing the canonical channel-mention
token, e.g. `<#123>`. -/
def ChannelId.displayStr (c : ChannelId) : String :=
  "<#" ++ toString c.id ++ ">"

/-- Modelled from the spec: the `Display` rule of `RoleId` (owned by the
`::model` crate, not under src/), producing the canonical role-mention
token, e.g. `<@&123>`. -/
def RoleId.displayStr (r : RoleId) : String :=
  "<@&" ++ toString r.id ++ ">"

/-- Modelled from the spec: the `Display` rule of `UserId` (owned by the
`::model` crate, not under src/), producing the canonical user-mention
token, e.g. `<@42>`. -/
def UserId.displayStr (u : UserId) : String :=
  "<@" ++ toString u.id ++ ">"

/-- Modelled from the spec: `Emoji` from the external `::model` crate
(not under src/). The spec only requires that an emoji carries its own
display rule producing its inline emoji text, so the entity is modelled
by that text. -/
structure Emoji where
  displayText : String
  deriving DecidableEq, Repr

/-- Modelled from the spec: the `Emoji` display rule (owned by the
`::model` crate, not under src/), yielding the emoji's inline text. -/
def Emoji.display (e : Emoji) : String :=
  e.displayText

/-- Modelled from the spec: the `Mentionable` trait from the external
`::model` crate (not under src/) — the capability of an entity to produce
its own mention-token text via a no-argument method. -/
class Mentionable (α : Type) where
  mention : α → String

/-- Modelled from the spec: a `UserId` is mentionable, its mention token
being its canonical user-mention text. -/
instance : Mentionable UserId where
  mention := UserId.displayStr

/-- Modelled from the spec: an `Emoji` is mentionable (the source's doc
example calls `.mention(emoji)`), its mention text being its inline
display text. -/
instance : Mentionable Emoji where
  mention := Emoji.display

/-- Modelled from the spec: the `Into<ChannelId>` conversion capability —
any type with a defined conversion into a channel identifier. -/
class IntoChannelId (α : Type) where
  intoChannelId : α → ChannelId

/-- Modelled from the spec: the `Into<RoleId>` conversion capability. -/
class IntoRoleId (α : Type) where
  intoRoleId : α → RoleId

/-- Modelled from the spec: the `Into<UserId>` conversion capability. -/
class IntoUserId (α : Type) where
  intoUserId : α → UserId

/-- A channel identifier converts into itself. -/
instance : IntoChannelId ChannelId where
  intoChannelId := id

/-- Modelled from the spec: a raw numeric id converts into a `ChannelId`. -/
instance : IntoChannelId Nat where
  intoChannelId := ChannelId.mk

/-- A role identifier converts into itself. -/
instance : IntoRoleId RoleId where
  intoRoleId := id

/-- Modelled from the spec: a raw numeric id converts into a `RoleId`. -/
instance : IntoRoleId Nat where
  intoRoleId := RoleId.mk

/-- A user identifier converts into itself. -/
instance : IntoUserId UserId where
  intoUserId := id

/-- Modelled from the spec: a raw numeric id converts into a `UserId`. -/
instance : IntoUserId Nat where
  intoUserId := UserId.mk

/-- Modelled from the spec: a higher-level channel entity (`GuildChannel`)
from the `::model` crate (not under src/), exposing its channel id and
converting into that `ChannelId`. -/
structure GuildChannel where
  channelId : ChannelId
  deriving DecidableEq, Repr

/-- Modelled from the spec: a `GuildChannel` converts into the `ChannelId`
it exposes. -/
instance : IntoChannelId GuildChannel where
  intoChannelId := GuildChannel.channelId

/-- `pub struct MessageBuilder(pub String)`: the builder wraps exactly one
growable string buffer (`self.0`, here `inner`). -/
structure MessageBuilder where
  inner : String
  deriving DecidableEq, Repr

/-- `impl Default for MessageBuilder`: `MessageBuilder(String::default())`,
the empty buffer. -/
def MessageBuilder.default : MessageBuilder :=
  ⟨""⟩

/-- `MessageBuilder::new`: `MessageBuilder::default()`. -/
def MessageBuilder.new : MessageBuilder :=
  MessageBuilder.default

/-- `MessageBuilder::build`: `self.0` — pulls the inner value out. -/
def MessageBuilder.build (self : MessageBuilder) : String :=
  self.inner

/-- `MessageBuilder::push`: `self.0.push_str(content)` — appends the
string verbatim. -/
def MessageBuilder.push (self : MessageBuilder) (content : String) : MessageBuilder :=
  ⟨self.inner ++ content⟩

/-- `MessageBuilder::mention`: `self.0.push_str(&item.mention())`. -/
def MessageBuilder.mention {M : Type} [Mentionable M] (self : MessageBuilder)
    (item : M) : MessageBuilder :=
  ⟨self.inner ++ Mentionable.mention item⟩

/-- `MessageBuilder::channel`: `self.0.push_str(&format!("{}", channel.into()))`. -/
def MessageBuilder.channel {C : Type} [IntoChannelId C] (self : MessageBuilder)
    (channel : C) : MessageBuilder :=
  ⟨self.inner ++ (IntoChannelId.intoChannelId channel).displayStr⟩

/-- `MessageBuilder::role`: `self.0.push_str(&format!("{}", role.into()))`. -/
def MessageBuilder.role {R : Type} [IntoRoleId R] (self : MessageBuilder)
    (role : R) : MessageBuilder :=
  ⟨self.inner ++ (IntoRoleId.intoRoleId role).displayStr⟩

/-- `MessageBuilder::user`: `self.0.push_str(&format!("{}", user.into()))`. -/
def MessageBuilder.user {U : Type} [IntoUserId U] (self : MessageBuilder)
    (user : U) : MessageBuilder :=
  ⟨self.inner ++ (IntoUserId.intoUserId user).displayStr⟩

/-- `MessageBuilder::emoji`: `self.0.push_str(&format!("{}", emoji))`,
delegating to the emoji's display rule. -/
def MessageBuilder.emoji (self : MessageBuilder) (e : Emoji) : MessageBuilder :=
  ⟨self.inner ++ e.display⟩

/-- `impl fmt::Display for MessageBuilder`: delegates to the buffer's own
display, yielding exactly the accumulated content without consuming the
builder. -/
def MessageBuilder.displayStr (self : MessageBuilder) : String :=
  self.inner

/-- A carrier for an arbitrary mentionable entity, represented by the
mention-token text its `Mentionable` capability produces. -/
structure MentionText where
  text : String
  deriving DecidableEq, Repr

/-- A `MentionText` entity mentions as exactly its carried token text. -/
instance : Mentionable MentionText where
  mention := MentionText.text

/-- One chained call on the builder: a literal `push`, a `mention` of some
mentionable entity, or an `emoji`. -/
inductive Frag where
  | lit (s : String)
  | ment (m : MentionText)
  | emo (e : Emoji)
  deriving DecidableEq, Repr

/-- Apply one chained call to a builder state. -/
def applyFrag (b : MessageBuilder) : Frag → MessageBuilder
  | .lit s => b.push s
  | .ment m => b.mention m
  | .emo e => b.emoji e

/-- The textual fragment a single chained call contributes. -/
def fragText : Frag → String
  | .lit s => s
  | .ment m => Mentionable.mention m
  | .emo e => e.display

/-- Left-to-right concatenation of a list of strings. -/
def concatAll : List String → String
  | [] => ""
  | s :: rest => s ++ concatAll rest

/-- `StrPre a b`: the string `a` is an initial segment of the string `b`,
i.e. some suffix extends `a` to `b`. -/
def StrPre (a b : String) : Prop :=
  ∃ t, a ++ t = b

end MsgB

namespace MsgB

theorem applyFrag_inner (b : MessageBuilder) (f : Frag) :
    (applyFrag b f).inner = b.inner ++ fragText f := by
  cases f <;> rfl

theorem foldl_applyFrag_inner (fs : List Frag) (b : MessageBuilder) :
    (fs.foldl applyFrag b).inner = b.inner ++ concatAll (fs.map fragText) := by
  induction fs generalizing b with
  | nil => simp [concatAll]
  | cons f rest ih =>
    simp only [List.foldl_cons, List.map_cons, concatAll, ih,
      applyFrag_inner, String.append_assoc]

/-- Claim C1: for all strings `a` and `b`, pushing `a` then `b` onto a new
builder and building yields exactly the concatenation `a ++ b`: `push`
appends verbatim, in append order, with no separators or modification. -/
theorem c1_push_push_build (a b : String) :
    ((MessageBuilder.new.push a).push b).build = a ++ b := by
  simp [MessageBuilder.new, MessageBuilder.default, MessageBuilder.push,
    MessageBuilder.build]

/-- Claim C2: chaining preserves order with no reordering or
deduplication: any sequence of push/mention/emoji calls builds to exactly
the left-to-right concatenation of each call's fragment; in particular
`build(mention(push(new(), "Hi "), someUser))` equals
`"Hi " ++ someUser.mention()`, and the doc-example chain
`new().push("You sent a message, ").mention(user).push("! ").mention(emoji).build()`
equals the concatenation of its four fragments. -/
theorem c2_chaining_preserves_order :
    (∀ (b : MessageBuilder) (fs : List Frag),
        (fs.foldl applyFrag b).build = b.build ++ concatAll (fs.map fragText)) ∧
    (∀ (M : Type) [Mentionable M] (someUser : M),
        ((MessageBuilder.new.push "Hi ").mention someUser).build =
          "Hi " ++ Mentionable.mention someUser) ∧
    (∀ (M : Type) [Mentionable M] (user : M) (emoji : Emoji),
        ((((MessageBuilder.new.push "You sent a message, ").mention
              user).push "! ").mention emoji).build =
          "You sent a message, " ++ Mentionable.mention user ++ "! " ++
            emoji.display) := by
  refine ⟨fun b fs => foldl_applyFrag_inner fs b, fun M _ u => ?_,
    fun M _ u e => ?_⟩
  · simp [MessageBuilder.new, MessageBuilder.default, MessageBuilder.push,
      MessageBuilder.mention, MessageBuilder.build]
  · simp [MessageBuilder.new, MessageBuilder.default, MessageBuilder.push,
      MessageBuilder.mention, MessageBuilder.build, Mentionable.mention,
      Emoji.display, String.append_assoc]

/-- Claim C3: `build(channel(new(), 123))` is the canonical channel-mention
token `"<#123>"`, and the result is identical whether the argument is the
raw numeric id `123` or a higher-level entity converting into the same
`ChannelId`. -/
theorem c3_channel_mention_token :
    (MessageBuilder.new.channel (123 : Nat)).build = "<#123>" ∧
    (MessageBuilder.new.channel (GuildChannel.mk ⟨123⟩)).build =
      (MessageBuilder.new.channel (123 : Nat)).build ∧
    (∀ g : GuildChannel,
        (MessageBuilder.new.channel g).build =
          (MessageBuilder.new.channel g.channelId).build) :=
  ⟨by decide, by decide, fun g => rfl⟩

/-- Claim C4: `build(user(new(), 42))` is the canonical user-mention token
`"<@42>"`. -/
theorem c4_user_mention_token :
    (MessageBuilder.new.user (42 : Nat)).build = "<@42>" := by
  decide

/-- Claim C5: a freshly constructed builder is empty: `build(new())` is the
empty string. -/
theorem c5_new_builds_empty : MessageBuilder.new.build = "" :=
  rfl

/-- Claim C6: for every builder state, the display/string-view operation
yields exactly the text `build` would yield, without consuming the
builder. -/
theorem c6_display_eq_build (b : MessageBuilder) :
    b.displayStr = b.build :=
  rfl

/-- Claim C7: append-only invariant: for every operation and every builder
state, the buffer before the call is an initial segment of the buffer
after the call — no operation removes or rewrites previously appended
content. -/
theorem c7_append_only :
    (∀ (b : MessageBuilder) (s : String), StrPre b.inner (b.push s).inner) ∧
    (∀ (M : Type) [Mentionable M] (b : MessageBuilder) (m : M),
        StrPre b.inner (b.mention m).inner) ∧
    (∀ (C : Type) [IntoChannelId C] (b : MessageBuilder) (c : C),
        StrPre b.inner (b.channel c).inner) ∧
    (∀ (R : Type) [IntoRoleId R] (b : MessageBuilder) (r : R),
        StrPre b.inner (b.role r).inner) ∧
    (∀ (U : Type) [IntoUserId U] (b : MessageBuilder) (u : U),
        StrPre b.inner (b.user u).inner) ∧
    (∀ (b : MessageBuilder) (e : Emoji), StrPre b.inner (b.emoji e).inner) :=
  ⟨fun _ s => ⟨s, rfl⟩, fun _ _ _ m => ⟨Mentionable.mention m, rfl⟩,
    fun _ _ _ c => ⟨(IntoChannelId.intoChannelId c).displayStr, rfl⟩,
    fun _ _ _ r => ⟨(IntoRoleId.intoRoleId r).displayStr, rfl⟩,
    fun _ _ _ u => ⟨(IntoUserId.intoUserId u).displayStr, rfl⟩,
    fun _ e => ⟨e.display, rfl⟩⟩

/-- Claim C8: totality: every documented operation is defined for all
inputs and cannot fail — each one returns the builder with exactly its
fragment appended (in particular `push` accepts any string, including the
empty string), `new` returns the empty builder, and `build` returns the
accumulated buffer. -/
theorem c8_operations_total :
    (∀ (b : MessageBuilder) (s : String), (b.push s).inner = b.inner ++ s) ∧
    (∀ (M : Type) [Mentionable M] (b : MessageBuilder) (m : M),
        (b.mention m).inner = b.inner ++ Mentionable.mention m) ∧
    (∀ (C : Type) [IntoChannelId C] (b : MessageBuilder) (c : C),
        (b.channel c).inner =
          b.inner ++ (IntoChannelId.intoChannelId c).displayStr) ∧
    (∀ (R : Type) [IntoRoleId R] (b : MessageBuilder) (r : R),
        (b.role r).inner = b.inner ++ (IntoRoleId.intoRoleId r).displayStr) ∧
    (∀ (U : Type) [IntoUserId U] (b : MessageBuilder) (u : U),
        (b.user u).inner = b.inner ++ (IntoUserId.intoUserId u).displayStr) ∧
    (∀ (b : MessageBuilder) (e : Emoji), (b.emoji e).inner = b.inner ++ e.display) ∧
    MessageBuilder.new.inner = "" ∧
    (∀ b : MessageBuilder, b.build = b.inner) :=
  ⟨fun _ _ => rfl, fun _ _ _ _ => rfl, fun _ _ _ _ => rfl, fun _ _ _ _ => rfl,
    fun _ _ _ _ => rfl, fun _ _ => rfl, rfl, fun _ => rfl⟩

/-- Claim C9: pushing the empty string is an identity on the accumulated
buffer: for every builder state `b`, `push(b, "")` leaves the buffer
exactly equal to `b`'s buffer. -/
theorem c9_push_empty_identity (b : MessageBuilder) :
    (b.push "").inner = b.inner := by
  simp [MessageBuilder.push]

/-- Claim C10: the two construction paths coincide: `new()` and
`default()` produce builders with identical empty buffers (indeed the very
same builder value). -/
theorem c10_new_eq_default :
    MessageBuilder.new = MessageBuilder.default ∧
      MessageBuilder.new.inner = "" ∧ MessageBuilder.default.inner = "" :=
  ⟨rfl, rfl, rfl⟩

end MsgB
